import Mathlib

/-!
Shallow embedding of the go-echo-practice repository: three Echo example
servers (q1-simple-server, q2-json-response, todo-app) and the todo-app
configuration loader.  HTTP handlers are embedded as pure functions from
requests to responses; JSON payloads are kept at the level of JSON values
(the serialisation performed by the framework is not re-modelled); the
process environment is a partial map from variable names to values, with
Go's os.Getenv collapsing an unset variable to the empty string.
-/

/-- A JSON value, as produced by parsing a request body or handed to
Echo's c.JSON for serialisation.  Numbers are modelled as integers; no
payload in this repository carries a fractional number. -/
inductive JVal where
  | null : JVal
  | bool (b : Bool) : JVal
  | num (n : Int) : JVal
  | str (s : String) : JVal
  | arr (xs : List JVal) : JVal
  | obj (fields : List (String × JVal)) : JVal
deriving Repr

/-- The body of an HTTP response: c.String produces text, c.JSON produces
a JSON value (which Echo then serialises). -/
inductive Body where
  | text (s : String) : Body
  | json (v : JVal) : Body
deriving Repr

/-- An HTTP response: a status code and a body. -/
structure HttpResponse where
  status : Nat
  body : Body
deriving Repr

/-- The body of an inbound POST request as seen by Echo's Bind: either
absent (ContentLength 0, which DefaultBinder accepts without decoding),
syntactically invalid JSON (a decode error), or a parsed JSON value. -/
inductive RequestBody where
  | empty : RequestBody
  | malformed : RequestBody
  | json (v : JVal) : RequestBody
deriving Repr

/-- An inbound HTTP request: method, path, and (for POST) a body. -/
inductive Request where
  | get (path : String) : Request
  | post (path : String) (body : RequestBody) : Request
deriving Repr

/-- Mirrors net/http.StatusOK. -/
def StatusOK : Nat := 200

/-- Mirrors net/http.StatusBadRequest. -/
def StatusBadRequest : Nat := 400

/-! ## q2-json-response/main.go -/

/-- Mirrors the User struct of q2-json-response/main.go: fields Id and
Name with JSON tags "id" and "name". -/
structure User where
  Id : Int
  Name : String
deriving Repr

/-- Mirrors the UserSignupRequest struct: Name with tag "name,omitempty"
and Email with tag "email". -/
structure UserSignupRequest where
  Name : String
  Email : String
deriving Repr, DecidableEq

/-- The Go zero value of UserSignupRequest, as declared by
`var userReq UserSignupRequest` in the POST /users handler. -/
def zeroUserSignupRequest : UserSignupRequest := ⟨"", ""⟩

/-- Lowering of one ASCII character, for the case-insensitive key match
of encoding/json (both JSON tags involved are plain ASCII). -/
def charLower (c : Char) : Char :=
  if 65 ≤ c.toNat ∧ c.toNat ≤ 90 then Char.ofNat (c.toNat + 32) else c

/-- ASCII lowering of a string. -/
def stringLower (s : String) : String := String.mk (s.data.map charLower)

/-- Key matching of encoding/json: an object key matches a struct field's
JSON tag exactly or case-insensitively (modelled as ASCII folding). -/
def keyMatches (k tag : String) : Bool :=
  k = tag || stringLower k = tag

/-- Decoding one object entry into UserSignupRequest, following
encoding/json: a string value sets the matched field, null leaves it
untouched, any other value for a matched field is a type error, and an
unmatched key is ignored. -/
def bindEntry (cur : UserSignupRequest) (k : String) (v : JVal) :
    Except Unit UserSignupRequest :=
  if keyMatches k "name" then
    match v with
    | JVal.str s => Except.ok ⟨s, cur.Email⟩
    | JVal.null => Except.ok cur
    | _ => Except.error ()
  else if keyMatches k "email" then
    match v with
    | JVal.str s => Except.ok ⟨cur.Name, s⟩
    | JVal.null => Except.ok cur
    | _ => Except.error ()
  else
    Except.ok cur

/-- Decoding the entries of a JSON object in order (later entries
overwrite earlier ones, as in encoding/json). -/
def bindEntries : UserSignupRequest → List (String × JVal) →
    Except Unit UserSignupRequest
  | cur, [] => Except.ok cur
  | cur, (k, v) :: rest =>
    match bindEntry cur k v with
    | Except.ok next => bindEntries next rest
    | Except.error e => Except.error e

/-- Mirrors c.Bind(&userReq) for the UserSignupRequest target: an empty
body is accepted without decoding (Echo's DefaultBinder returns early on
ContentLength 0), malformed JSON is a decode error, a JSON object is
decoded field-wise, a top-level null is a no-op for encoding/json, and
any other top-level value is a type error. -/
def bindUserSignupRequest : RequestBody → Except Unit UserSignupRequest
  | RequestBody.empty => Except.ok zeroUserSignupRequest
  | RequestBody.malformed => Except.error ()
  | RequestBody.json JVal.null => Except.ok zeroUserSignupRequest
  | RequestBody.json (JVal.obj fields) => bindEntries zeroUserSignupRequest fields
  | RequestBody.json _ => Except.error ()

/-- Mirrors encoding/json marshalling of UserSignupRequest: fields in
struct order (Name then Email), with Name omitted when it is the empty
string because of its omitempty tag. -/
def marshalUserSignupRequest (u : UserSignupRequest) : JVal :=
  JVal.obj ((if u.Name = "" then [] else [("name", JVal.str u.Name)]) ++
    [("email", JVal.str u.Email)])

/-- The fixed error payload of the POST /users handler. -/
def invalidPayloadResponse : HttpResponse :=
  ⟨StatusBadRequest, Body.json (JVal.obj [("message", JVal.str "invalid request payload")])⟩

/-- Mirrors the POST /users handler of q2-json-response/main.go: bind the
body into a UserSignupRequest; on error respond 400 with the fixed
message, otherwise respond 200 with the struct re-encoded as JSON. -/
def postUsersHandler (b : RequestBody) : HttpResponse :=
  match bindUserSignupRequest b with
  | Except.error _ => invalidPayloadResponse
  | Except.ok u => ⟨200, Body.json (marshalUserSignupRequest u)⟩

/-- Mirrors the GET /users handler: c.JSON(http.StatusOK, map literal).
Go serialises a map with its keys in sorted order; "id" sorts before
"name". -/
def getUsersHandler : HttpResponse :=
  ⟨StatusOK, Body.json (JVal.obj [("id", JVal.num 1), ("name", JVal.str "john")])⟩

/-- Mirrors the GET /user handler: c.JSON(http.StatusOK, echo.Map literal),
echo.Map being an alias of map with keys serialised in sorted order. -/
def getUserHandler : HttpResponse :=
  ⟨StatusOK, Body.json (JVal.obj [("id", JVal.num 1), ("name", JVal.str "John")])⟩

/-- Mirrors encoding/json marshalling of User: fields in struct order. -/
def marshalUser (u : User) : JVal :=
  JVal.obj [("id", JVal.num u.Id), ("name", JVal.str u.Name)]

/-- Mirrors the GET /users2 handler: C.JSON(200, User literal). -/
def getUsers2Handler : HttpResponse :=
  ⟨200, Body.json (marshalUser ⟨2, "john 2"⟩)⟩

/-- Echo's default handler for an unregistered route: a 404 with the
framework's fixed JSON message. -/
def notFoundResponse : HttpResponse :=
  ⟨404, Body.json (JVal.obj [("message", JVal.str "Not Found")])⟩

/-- The routing table registered by main in q2-json-response/main.go. -/
def q2Dispatch : Request → HttpResponse
  | Request.get path =>
    if path = "/users" then getUsersHandler
    else if path = "/user" then getUserHandler
    else if path = "/users2" then getUsers2Handler
    else notFoundResponse
  | Request.post path b =>
    if path = "/users" then postUsersHandler b
    else notFoundResponse

/-! ## q1-simple-server/cmd/main.go -/

/-- Mirrors the GET / handler of q1-simple-server: c.String(200, "Hello world"). -/
def helloHandler : HttpResponse := ⟨200, Body.text "Hello world"⟩

/-- The routing table registered by main in q1-simple-server/cmd/main.go. -/
def q1Dispatch : Request → HttpResponse
  | Request.get path => if path = "/" then helloHandler else notFoundResponse
  | Request.post _ _ => notFoundResponse

/-- Sequential processing of a list of requests by a server whose
handlers are the pure functions of this file: the registered handlers
read and write no state shared across requests, so the server is
embedded as mapping its dispatch function over the request sequence. -/
def serveSequence (d : Request → HttpResponse) : List Request → List HttpResponse
  | [] => []
  | r :: rs => d r :: serveSequence d rs

/-! ## todo-app config loader (config package) and todo-app/main.go -/

/-- A process environment: a partial map from variable names to values.
A variable can be unset (none) or set, possibly to the empty string. -/
def Env : Type := String → Option String

/-- Mirrors os.Getenv: an unset variable reads as the empty string. -/
def osGetenv (e : Env) (key : String) : String := (e key).getD ""

/-- Mirrors getEnv of the config package: return the variable's value
when os.Getenv yields a non-empty string, the default otherwise. -/
def getEnv (e : Env) (key defaultValue : String) : String :=
  if osGetenv e key ≠ "" then osGetenv e key else defaultValue

/-- Mirrors the Config struct of the config package. -/
structure Config where
  AppEnv : String
  Port : String
  DBURI : String
deriving Repr

/-- Mirrors godotenv.Load(): variables from the .env file are added to
the process environment without overriding variables already set. -/
def godotenvLoad (procEnv fileEnv : Env) : Env :=
  fun k => match procEnv k with
    | some v => some v
    | none => fileEnv k

/-- Mirrors LoadConfig of the config package: after godotenv.Load, build
the Config from APP_ENV (default "development"), PORT (default "8080")
and DB_URI (default ""), then fail fast — log.Fatal, which exits the
process with a non-zero status, modelled as Except.error — when DBURI is
empty. -/
def LoadConfig (procEnv fileEnv : Env) : Except Unit Config :=
  let env := godotenvLoad procEnv fileEnv
  let cfg : Config := ⟨getEnv env "APP_ENV" "development",
    getEnv env "PORT" "8080", getEnv env "DB_URI" ""⟩
  if cfg.DBURI = "" then Except.error () else Except.ok cfg

/-- Mirrors the GET / handler of todo-app/main.go. -/
def todoRootHandler (cfg : Config) : HttpResponse :=
  ⟨200, Body.text ("Todo API running in " ++ cfg.AppEnv ++ " mode")⟩

/-- Mirrors main of todo-app/main.go up to the listener: LoadConfig runs
first; only when it returns does main build the listen address
":" ++ cfg.Port and call e.Start.  A fatal LoadConfig (Except.error)
therefore terminates the process before any listener is bound; on
success the loaded config and the bound address are produced. -/
def todoMain (procEnv fileEnv : Env) : Except Unit (Config × String) :=
  match LoadConfig procEnv fileEnv with
  | Except.error e => Except.error e
  | Except.ok cfg => Except.ok (cfg, ":" ++ cfg.Port)

/-! ## Helper lemmas -/

theorem getEnv_eq (e : Env) (k d : String) :
    getEnv e k d = if osGetenv e k = "" then d else osGetenv e k := by
  by_cases hc : osGetenv e k = "" <;> simp [getEnv, hc]

theorem serveSequence_getElem (d : Request → HttpResponse) :
    ∀ (rs1 rs2 : List Request) (r : Request),
      (serveSequence d (rs1 ++ r :: rs2))[rs1.length]? = some (d r) := by
  intro rs1
  induction rs1 with
  | nil => intro rs2 r; simp [serveSequence]
  | cons a t ih =>
    intro rs2 r
    simpa [serveSequence] using ih rs2 r

/-! ## Claim theorems -/

/-- Claim C1: whenever the body of a POST /users request decodes
successfully into a UserSignupRequest, the handler responds with status
200 and the JSON re-encoding of exactly the decoded name/email fields,
the name key being omitted precisely when the decoded name is empty. -/
theorem post_users_success_roundtrip (b : RequestBody) (u : UserSignupRequest)
    (h : bindUserSignupRequest b = Except.ok u) :
    postUsersHandler b = ⟨200, Body.json (marshalUserSignupRequest u)⟩ ∧
    (u.Name = "" →
      marshalUserSignupRequest u = JVal.obj [("email", JVal.str u.Email)]) ∧
    (u.Name ≠ "" →
      marshalUserSignupRequest u =
        JVal.obj [("name", JVal.str u.Name), ("email", JVal.str u.Email)]) := by
  refine ⟨?_, ?_, ?_⟩
  · simp [postUsersHandler, h]
  · intro hn; simp [marshalUserSignupRequest, hn]
  · intro hn; simp [marshalUserSignupRequest, hn]

/-- Witness for C1: the body in the spec's example, a lone email field,
is decoded and echoed back with status 200 and no name key. -/
theorem post_users_success_roundtrip_witness :
    postUsersHandler (RequestBody.json (JVal.obj [("email", JVal.str "a@b.com")])) =
      ⟨200, Body.json (JVal.obj [("email", JVal.str "a@b.com")])⟩ :=
  ((post_users_success_roundtrip
    (RequestBody.json (JVal.obj [("email", JVal.str "a@b.com")]))
    ⟨"", "a@b.com"⟩ rfl).1).trans rfl

/-- Claim C2: the POST /users handler answers with status 400 and exactly
the JSON body with message "invalid request payload" precisely when the
bind fails, and a bind failure is the only non-200 outcome the handler
produces. -/
theorem post_users_failure_only (b : RequestBody) :
    (postUsersHandler b =
        ⟨400, Body.json (JVal.obj [("message", JVal.str "invalid request payload")])⟩ ↔
      bindUserSignupRequest b = Except.error ()) ∧
    ((postUsersHandler b).status ≠ 200 ↔ bindUserSignupRequest b = Except.error ()) := by
  cases hb : bindUserSignupRequest b with
  | error e =>
    cases e
    simp [postUsersHandler, hb, invalidPayloadResponse, StatusBadRequest]
  | ok u =>
    simp [postUsersHandler, hb, invalidPayloadResponse, StatusBadRequest]

/-- Counterexample to C3 as stated: a request body that supplies no email
field at all is still accepted as valid — it binds successfully to the
zero struct and the handler answers 200, so the email field is not
required. -/
theorem post_users_email_not_required :
    bindUserSignupRequest (RequestBody.json (JVal.obj [])) =
      Except.ok zeroUserSignupRequest ∧
    postUsersHandler (RequestBody.json (JVal.obj [])) =
      ⟨200, Body.json (JVal.obj [("email", JVal.str "")])⟩ :=
  ⟨rfl, rfl⟩

/-- Claim C3 amended: in the signup-request record both fields are
optional — a body supplying neither, either, or both of name and email
decodes successfully, a missing field decoding to the empty string. -/
theorem signup_fields_both_optional :
    bindUserSignupRequest (RequestBody.json (JVal.obj [])) =
      Except.ok zeroUserSignupRequest ∧
    (∀ e, bindUserSignupRequest (RequestBody.json (JVal.obj [("email", JVal.str e)])) =
      Except.ok ⟨"", e⟩) ∧
    (∀ n, bindUserSignupRequest (RequestBody.json (JVal.obj [("name", JVal.str n)])) =
      Except.ok ⟨n, ""⟩) ∧
    (∀ n e, bindUserSignupRequest
        (RequestBody.json (JVal.obj [("name", JVal.str n), ("email", JVal.str e)])) =
      Except.ok ⟨n, e⟩) :=
  ⟨rfl, fun _ => rfl, fun _ => rfl, fun _ _ => rfl⟩

/-- Claim C4: when DB_URI is unset in the environment LoadConfig reads
(the process environment merged with the .env file), LoadConfig is fatal
— modelled as Except.error, standing for the non-zero-status exit of
log.Fatal — and todo-app's main therefore never reaches e.Start: no
listen address is ever produced. -/
theorem loadconfig_fatal_before_listener (p f : Env)
    (h : godotenvLoad p f "DB_URI" = none) :
    LoadConfig p f = Except.error () ∧ todoMain p f = Except.error () := by
  have hdb : getEnv (godotenvLoad p f) "DB_URI" "" = "" := by
    simp [getEnv, osGetenv, h]
  have hl : LoadConfig p f = Except.error () := by
    simp [LoadConfig, hdb]
  exact ⟨hl, by simp [todoMain, hl]⟩

/-- Witness for C4: with every variable unset, LoadConfig and main both
end in the fatal error. -/
theorem loadconfig_fatal_before_listener_witness :
    LoadConfig (fun _ => none) (fun _ => none) = Except.error () ∧
    todoMain (fun _ => none) (fun _ => none) = Except.error () :=
  loadconfig_fatal_before_listener (fun _ => none) (fun _ => none) rfl

/-- Claim C5: a successfully loaded Config carries the APP_ENV value with
default "development", the PORT value with default "8080", and the raw
DB_URI value with no default; a variable is absent exactly when os.Getenv
yields the empty string for it. -/
theorem loadconfig_defaults (p f : Env) (cfg : Config)
    (h : LoadConfig p f = Except.ok cfg) :
    cfg.AppEnv = (if osGetenv (godotenvLoad p f) "APP_ENV" = "" then "development"
      else osGetenv (godotenvLoad p f) "APP_ENV") ∧
    cfg.Port = (if osGetenv (godotenvLoad p f) "PORT" = "" then "8080"
      else osGetenv (godotenvLoad p f) "PORT") ∧
    cfg.DBURI = osGetenv (godotenvLoad p f) "DB_URI" := by
  simp only [LoadConfig] at h
  by_cases hdb : getEnv (godotenvLoad p f) "DB_URI" "" = ""
  · rw [if_pos hdb] at h
    exact (Except.noConfusion h)
  · rw [if_neg hdb] at h
    injection h with h2
    subst h2
    refine ⟨getEnv_eq _ _ _, getEnv_eq _ _ _, ?_⟩
    show getEnv (godotenvLoad p f) "DB_URI" "" = osGetenv (godotenvLoad p f) "DB_URI"
    rw [getEnv_eq] at hdb ⊢
    by_cases hc : osGetenv (godotenvLoad p f) "DB_URI" = ""
    · exact absurd (if_pos hc) hdb
    · rw [if_neg hc]

/-- Witness for C5: with only DB_URI set, the loaded Config gets both
defaults and the raw DB_URI value. -/
theorem loadconfig_defaults_witness :
    (Config.mk "development" "8080" "mongo").AppEnv = "development" ∧
    (Config.mk "development" "8080" "mongo").Port = "8080" ∧
    (Config.mk "development" "8080" "mongo").DBURI = "mongo" := by
  have h := loadconfig_defaults (fun k => if k = "DB_URI" then some "mongo" else none)
    (fun _ => none) ⟨"development", "8080", "mongo"⟩ rfl
  exact ⟨h.1.trans (by rfl), h.2.1.trans (by rfl), h.2.2.trans (by rfl)⟩

/-- Claim C6: the simple server answers GET / with status 200 and the
literal body "Hello world", and the config-aware todo-app root handler
answers status 200 with a body containing the configured environment
name. -/
theorem root_handlers_ok (cfg : Config) :
    q1Dispatch (Request.get "/") = helloHandler ∧
    helloHandler = ⟨200, Body.text "Hello world"⟩ ∧
    (todoRootHandler cfg).status = 200 ∧
    (∃ s1 s2, (todoRootHandler cfg).body = Body.text (s1 ++ cfg.AppEnv ++ s2)) :=
  ⟨rfl, rfl, rfl, "Todo API running in ", " mode", rfl⟩

/-- Claim C7: GET /user is answered with status 200 (http.StatusOK) and
the JSON object with id 1 and name "John". -/
theorem get_user_route_ok :
    q2Dispatch (Request.get "/user") =
      ⟨StatusOK, Body.json (JVal.obj [("id", JVal.num 1), ("name", JVal.str "John")])⟩ ∧
    StatusOK = 200 :=
  ⟨rfl, rfl⟩

/-- Claim C8: GET /users2 is answered with status 200 and the JSON object
with id 2 and name "john 2". -/
theorem get_users2_route_ok :
    q2Dispatch (Request.get "/users2") =
      ⟨200, Body.json (JVal.obj [("id", JVal.num 2), ("name", JVal.str "john 2")])⟩ :=
  rfl

/-- Claim C9: the servers are stateless — in any request sequence, the
response at a position is exactly the dispatch of the request at that
position, independent of every other request served before or after. -/
theorem handlers_stateless_independent (rs1 rs2 : List Request) (r : Request) :
    (serveSequence q2Dispatch (rs1 ++ r :: rs2))[rs1.length]? = some (q2Dispatch r) ∧
    (serveSequence q1Dispatch (rs1 ++ r :: rs2))[rs1.length]? = some (q1Dispatch r) :=
  ⟨serveSequence_getElem q2Dispatch rs1 rs2 r,
   serveSequence_getElem q1Dispatch rs1 rs2 r⟩

/-- Claim C10: getEnv treats a variable set to the empty string exactly
like an unset one — both yield the default — and a DB_URI that is set but
empty still makes LoadConfig fatal. -/
theorem getenv_empty_like_unset :
    (∀ (e : Env) (k d : String), e k = some "" → getEnv e k d = d) ∧
    (∀ (e : Env) (k d : String), e k = none → getEnv e k d = d) ∧
    (∀ p f : Env, godotenvLoad p f "DB_URI" = some "" →
      LoadConfig p f = Except.error ()) := by
  refine ⟨?_, ?_, ?_⟩
  · intro e k d h; simp [getEnv, osGetenv, h]
  · intro e k d h; simp [getEnv, osGetenv, h]
  · intro p f h; simp [LoadConfig, getEnv, osGetenv, h]

/-- Witness for C10: PORT set to the empty string yields the default
"8080", and DB_URI set to the empty string is fatal. -/
theorem getenv_empty_like_unset_witness :
    getEnv (fun k => if k = "PORT" then some "" else none) "PORT" "8080" = "8080" ∧
    LoadConfig (fun k => if k = "DB_URI" then some "" else none) (fun _ => none) =
      Except.error () :=
  ⟨getenv_empty_like_unset.1 (fun k => if k = "PORT" then some "" else none)
      "PORT" "8080" (by rfl),
   getenv_empty_like_unset.2.2 (fun k => if k = "DB_URI" then some "" else none)
      (fun _ => none) (by rfl)⟩
